import Mathlib

/-!
Shallow embedding of the Crypto-Futures launcher scripts
(launcher.py, enhanced_launcher.py, launcher_wrapper.py, build_win_exe.py).

Modelling conventions:
* Paths are `PyPath` values: an absoluteness flag plus a component list,
  mirroring pathlib semantics for ordinary relative and absolute paths.
* The filesystem is modelled as the explicit tree of entries under the
  launcher root directory (an `FSNode`) together with an unconstrained stat
  oracle for every path not below that root, since absolute configured
  entrypoints make the code stat paths outside the root. File contents are
  the character list returned by a text-mode read, plus the result of
  attempting to parse the file as JSON.
* Python exceptions are modelled with `Except PyErr`; an uncaught exception
  propagates as an `.error` value.
* Subprocess results come from an oracle `run : List String -> Int` mapping a
  command line to the child exit code; side effects (environment creation,
  spawned processes) are recorded in an `Effect` trace.
* Text-mode `read(2048)` reads 2048 characters; the file model stores
  character lists so truncation is `List.take 2048`.
-/

/-- Python exception kinds that the modelled code can raise. -/
inductive PyErr where
  | attributeError
  | typeError
  | notADirectoryError
  | calledProcessError
deriving DecidableEq, Repr

/-- JSON values as produced by json.load. -/
inductive JVal where
  | null
  | bool (b : Bool)
  | num (n : Int)
  | str (s : String)
  | arr (xs : List JVal)
  | obj (kvs : List (String × JVal))

/-- Dictionary lookup for a parsed JSON object: last binding wins, as in
Python dict construction from repeated keys. -/
def lookupKey (kvs : List (String × JVal)) (k : String) : Option JVal :=
  (kvs.filter (fun kv => kv.1 = k)).getLast? |>.map (fun kv => kv.2)

/-- Python truthiness of a JSON value. -/
def truthy : JVal → Bool
  | .null => false
  | .bool b => b
  | .num n => n != 0
  | .str s => s != ""
  | .arr xs => !xs.isEmpty
  | .obj kvs => !kvs.isEmpty

/-- Whether a string starts with the given other string. -/
def strStartsWith (s pre : String) : Bool :=
  pre.data.isPrefixOf s.data

/-- Whether a string ends with the given other string. -/
def strEndsWith (s suf : String) : Bool :=
  suf.data.isSuffixOf s.data

/-- Splitting a character list at slashes, keeping empty segments. -/
def splitSlashAux : List Char → List Char → List String
  | [], acc => [String.mk acc.reverse]
  | c :: cs, acc =>
      if c = '/' then String.mk acc.reverse :: splitSlashAux cs []
      else splitSlashAux cs (c :: acc)

/-- The nonempty slash-separated segments of a string, as pathlib keeps
them as path components. -/
def slashSegs (s : String) : List String :=
  (splitSlashAux s.data []).filter (fun c => c ≠ "")

/-- A pathlib path: absoluteness flag plus components. -/
structure PyPath where
  absolute : Bool
  parts : List String
deriving DecidableEq, Repr

/-- Building a path from a string, as pathlib does for ordinary paths. -/
def pathOfString (s : String) : PyPath :=
  ⟨strStartsWith s "/", slashSegs s⟩

/-- The pathlib slash operator for a string segment (which may itself hold
slashes); an absolute right operand replaces the left one. -/
def PyPath.join (p : PyPath) (s : String) : PyPath :=
  if strStartsWith s "/" then pathOfString s
  else ⟨p.absolute, p.parts ++ slashSegs s⟩

/-- Extending a path by already-split components (used for walked paths). -/
def PyPath.joinParts (p : PyPath) (l : List String) : PyPath :=
  ⟨p.absolute, p.parts ++ l⟩

/-- Rendering a path back to a string, as str() on a Path. -/
def PyPath.render (p : PyPath) : String :=
  (if p.absolute then "/" else "") ++ String.intercalate "/" p.parts

/-- Contents of one regular file: whether a text-mode open/read succeeds,
the characters read, and the result json.load would give on it. -/
structure FileData where
  readable : Bool
  text : List Char
  json : Option JVal

mutual
/-- A directory tree node. -/
inductive FSNode where
  | file (fd : FileData)
  | dir (es : FSEntries)
/-- Named entries of a directory, in the order os.listdir reports them. -/
inductive FSEntries where
  | nil
  | cons (name : String) (node : FSNode) (rest : FSEntries)
end

/-- Whether a directory has no entries. -/
def FSEntries.isNil : FSEntries → Bool
  | .nil => true
  | .cons _ _ _ => false

/-- Finding a directory entry by name. -/
def FSEntries.findNode : FSEntries → String → Option FSNode
  | .nil, _ => none
  | .cons n node rest, k => if n = k then some node else rest.findNode k

/-- Resolving a relative component list inside a tree. -/
def FSNode.lookup : FSNode → List String → Option FSNode
  | n, [] => some n
  | .file _, _ :: _ => none
  | .dir es, k :: ks =>
      match es.findNode k with
      | some c => c.lookup ks
      | none => none

/-- A filesystem as seen from the launcher root directory: the explicit
tree below the root, and the stat answers for every other path, reachable
for instance through absolute configured entrypoints. -/
structure FS where
  root : PyPath
  tree : FSNode
  outside : PyPath → Option FSNode

/-- Stat of a path: a path below the root resolves in the explicit tree,
every other path is answered by the stat oracle. -/
def FS.statAt (fs : FS) (p : PyPath) : Option FSNode :=
  if p.absolute = fs.root.absolute && fs.root.parts.isPrefixOf p.parts then
    fs.tree.lookup (p.parts.drop fs.root.parts.length)
  else fs.outside p

/-- A stat oracle with no entries outside the root at all. -/
def noOutside : PyPath → Option FSNode :=
  fun _ => none

/-- Path.exists(). -/
def FS.existsAt (fs : FS) (p : PyPath) : Bool :=
  (fs.statAt p).isSome

/-- Path.exists() and Path.is_file() combined, as the resolver checks. -/
def FS.isFile (fs : FS) (p : PyPath) : Bool :=
  match fs.statAt p with
  | some (.file _) => true
  | _ => false

/-- One record produced by walking the tree: the relative directory
components, the file name, and the file contents. -/
abbrev WalkItem := List String × String × FileData

mutual
/-- All files below a node in os.walk order: the files of the current
directory first (in listdir order), then each subdirectory recursively
(in listdir order), exactly the order the heuristic scan visits them. -/
def FSNode.walkFiles : FSNode → List WalkItem
  | .file _ => []
  | .dir es => es.topFiles ++ es.subWalks
/-- The plain files among a directory entry list, in order. -/
def FSEntries.topFiles : FSEntries → List WalkItem
  | .nil => []
  | .cons n node rest =>
      (match node with
       | .file fd => [(([] : List String), n, fd)]
       | .dir _ => []) ++ rest.topFiles
/-- The recursive walks of the subdirectories of an entry list, in order. -/
def FSEntries.subWalks : FSEntries → List WalkItem
  | .nil => []
  | .cons n node rest =>
      (match node with
       | .dir _ => node.walkFiles.map (fun t => (n :: t.1, t.2))
       | .file _ => []) ++ rest.subWalks
end

/-- Truncating a file to the 2048 characters a bounded read can see. -/
def truncFD (fd : FileData) : FileData :=
  ⟨fd.readable, fd.text.take 2048, fd.json⟩

/-- Truncation lifted to walk records. -/
def truncItem (t : WalkItem) : WalkItem :=
  (t.1, t.2.1, truncFD t.2.2)

mutual
/-- Truncating every file of a tree to its first 2048 characters. -/
def FSNode.trunc : FSNode → FSNode
  | .file fd => .file (truncFD fd)
  | .dir es => .dir es.trunc
/-- Truncation of every file below a directory entry list. -/
def FSEntries.trunc : FSEntries → FSEntries
  | .nil => .nil
  | .cons n node rest => .cons n node.trunc rest.trunc
end

/-- List containment check modelling the Python substring operator. -/
def containsSub (hay needle : List Char) : Bool :=
  needle.isPrefixOf hay ||
    match hay with
    | [] => false
    | _ :: t => containsSub t needle

/-- A single quote character, used inside the run-as-main marker strings. -/
def sqc : String := String.singleton (Char.ofNat 39)

/-- Marker predicate of launcher.py line 48: the single-quoted run-as-main
comparison, a double-quoted dunder-main literal, or a main definition. -/
def launcherMarker (text : List Char) : Bool :=
  containsSub text ("__name__ == " ++ sqc ++ "__main__" ++ sqc).toList ||
  containsSub text "\"__main__\"".toList ||
  containsSub text "def main(".toList

/-- Marker predicate of enhanced_launcher.py line 49: the single-quoted
run-as-main comparison or a main definition. -/
def enhancedMarker (text : List Char) : Bool :=
  containsSub text ("__name__ == " ++ sqc ++ "__main__" ++ sqc).toList ||
  containsSub text "def main(".toList

/-- The scanning loop of discover_entrypoint_by_heuristics: skip names not
ending in .py, skip unreadable files, read 2048 characters and test the
marker, returning the first hit. -/
def scanFiles (marker : List Char → Bool) : List WalkItem → Option (List String × String)
  | [] => none
  | (d, fn, fd) :: rest =>
      if strEndsWith fn ".py" then
        if fd.readable then
          if marker (fd.text.take 2048) then some (d, fn)
          else scanFiles marker rest
        else scanFiles marker rest
      else scanFiles marker rest

/-- discover_entrypoint_by_heuristics, generic in the marker predicate that
distinguishes launcher.py from enhanced_launcher.py. -/
def discoverCore (marker : List Char → Bool) (fs : FS) : Option PyPath :=
  (scanFiles marker fs.tree.walkFiles).map (fun t => fs.root.joinParts (t.1 ++ [t.2]))

/-- load_launcher_config: a missing file, a directory, an unreadable file or
a parse failure all yield the empty mapping; otherwise the parsed JSON value
is returned unchecked (it need not be an object). -/
def load_launcher_config (tree : FSNode) : JVal :=
  match tree.lookup ["launcher_config.json"] with
  | some (.file fd) =>
      if fd.readable then
        match fd.json with
        | some j => j
        | none => .obj []
      else .obj []
  | some (.dir _) => .obj []
  | none => .obj []

/-- The attribute call cfg.get(key, default): only a dict has a get
attribute, so any non-object receiver raises AttributeError. -/
def getAttrGet (cfg : JVal) (key : String) (dflt : JVal) : Except PyErr JVal :=
  match cfg with
  | .obj kvs => .ok ((lookupKey kvs key).getD dflt)
  | _ => .error .attributeError

/-- The trailing `or` with an empty list: a falsy value is replaced. -/
def orEmptyList (v : JVal) : JVal :=
  if truthy v then v else .arr []

/-- Python iteration over a JSON value: lists yield their elements, strings
their characters, dicts their keys; other values are not iterable. -/
def iterElems : JVal → Except PyErr (List JVal)
  | .arr xs => .ok xs
  | .str s => .ok (s.toList.map (fun c => .str (String.singleton c)))
  | .obj kvs => .ok (kvs.map (fun kv => .str kv.1))
  | _ => .error .typeError

/-- The sequence the config tier runs before its loop:
cfg.get("entrypoints", []) or [], then the iteration protocol. -/
def cfgEntrypoints (cfg : JVal) : Except PyErr (List JVal) :=
  match getAttrGet cfg "entrypoints" (.arr []) with
  | .error e => .error e
  | .ok v => iterElems (orEmptyList v)

/-- The loop over configured entrypoints: a string candidate is joined to
the root and returned if it is an existing regular file; joining a
non-string candidate to a path raises TypeError. -/
def configLoop (fs : FS) : List JVal → Except PyErr (Option PyPath)
  | [] => .ok none
  | .str s :: rest =>
      let p := fs.root.join s
      if fs.isFile p then .ok (some p) else configLoop fs rest
  | _ :: _ => .error .typeError

/-- The fixed conventional candidate list of find_entrypoint. -/
def defaultCandidates : List String :=
  ["main.py", "app.py", "run.py", "start.py", "bootstrap.py"]

/-- The loop over a list of candidate file names directly under the root:
first existing regular file wins. -/
def firstExistingFile (fs : FS) : List String → Option PyPath
  | [] => none
  | c :: rest =>
      let p := fs.root.join c
      if fs.isFile p then some p else firstExistingFile fs rest

/-- find_entrypoint: configured entrypoints, then conventional names, then
the heuristic scan; generic in the heuristic marker. -/
def findEntrypointCore (marker : List Char → Bool) (fs : FS) : Except PyErr (Option PyPath) :=
  let cfg := load_launcher_config fs.tree
  match cfgEntrypoints cfg with
  | .error e => .error e
  | .ok vs =>
      match configLoop fs vs with
      | .error e => .error e
      | .ok (some p) => .ok (some p)
      | .ok none =>
          match firstExistingFile fs defaultCandidates with
          | some p => .ok (some p)
          | none => .ok (discoverCore marker fs)

/-- launcher.py discover_entrypoint_by_heuristics. -/
def Launcher.discover_entrypoint_by_heuristics : FS → Option PyPath :=
  discoverCore launcherMarker

/-- launcher.py find_entrypoint with the default candidate list. -/
def Launcher.find_entrypoint : FS → Except PyErr (Option PyPath) :=
  findEntrypointCore launcherMarker

/-- enhanced_launcher.py discover_entrypoint_by_heuristics. -/
def Enhanced.discover_entrypoint_by_heuristics : FS → Option PyPath :=
  discoverCore enhancedMarker

/-- enhanced_launcher.py find_entrypoint with the default candidate list. -/
def Enhanced.find_entrypoint : FS → Except PyErr (Option PyPath) :=
  findEntrypointCore enhancedMarker

/-- Observable side effects of a launcher invocation: creating the isolated
environment directory, and spawning a subprocess (optionally with an
overriding environment mapping). -/
inductive Effect where
  | createVenv (dir : PyPath)
  | runProc (cmd : List String) (envOverride : Option (String → Option String))

/-- The ambient world of one launcher.py invocation: process environment,
working directory, the tree under the project root, the tree under the
directory holding the launcher script, interpreter and platform facts, the
subprocess exit-code oracle, the project tree as it stands after the
packaging tool has run, and the stat oracle for paths outside the roots. Environment creation and dependency installation
write only below the .venv directory and the interpreter installation, so
the model keeps the project tree fixed across them. -/
structure World where
  env : String → Option String
  cwd : PyPath
  tree : FSNode
  scriptDir : PyPath
  scriptTree : FSNode
  scriptFile : PyPath
  sysExecutable : String
  isWindows : Bool
  run : List String → Int
  treeAfterBuild : FSNode
  outside : PyPath → Option FSNode

/-- launcher.py line 117: the project root from the environment, defaulting
to the current working directory. -/
def projectRoot (w : World) : PyPath :=
  match w.env "CRYPTO_PROJECT_ROOT" with
  | some s => pathOfString s
  | none => w.cwd

/-- The filesystem as seen from the project root. -/
def projFS (w : World) : FS :=
  ⟨projectRoot w, w.tree, w.outside⟩

/-- The filesystem as seen from the launcher script directory. -/
def scriptFS (w : World) : FS :=
  ⟨w.scriptDir, w.scriptTree, w.outside⟩

/-- ensure_venv: create the directory (and the environment) only when it
does not exist, then return the interpreter path by platform convention. -/
def ensure_venv (venvExists : Bool) (isWindows : Bool) (venv_dir : PyPath) :
    List Effect × PyPath :=
  (if venvExists then [] else [.createVenv venv_dir],
   if isWindows then (venv_dir.join "Scripts").join "python.exe"
   else (venv_dir.join "bin").join "python")

/-- install_requirements: succeed immediately when no manifest exists,
otherwise invoke pip on it and report whether pip exited zero. -/
def install_requirements (runE : List String → Int) (fs : FS)
    (python_exe : PyPath) (project_root : PyPath) : List Effect × Bool :=
  let req := project_root.join "requirements.txt"
  if fs.existsAt req then
    let cmd := [python_exe.render, "-m", "pip", "install", "-r", req.render]
    ([.runProc cmd none], runE cmd == 0)
  else ([], true)

/-- ensure_pyinstaller: pip-install the packaging tool, reporting whether
pip exited zero. -/
def ensure_pyinstaller (runE : List String → Int) (python_exe : PyPath) :
    List Effect × Bool :=
  let cmd := [python_exe.render, "-m", "pip", "install", "pyinstaller"]
  ([.runProc cmd none], runE cmd == 0)

/-- The fixed command line build_executable hands to the packaging tool. -/
def pyinstallerCmd (python_exe dist_dir build_dir launcher_script : PyPath) :
    List String :=
  [python_exe.render, "-m", "PyInstaller", "--onefile", "--name",
   "CryptoFuturesLauncher", "--distpath", dist_dir.render,
   "--workpath", build_dir.render, launcher_script.render]

/-- build_executable: skip with success when the dist directory exists and
holds any entry; iterating a plain file named dist raises; otherwise invoke
the packaging tool and report whether it exited zero. The returned tree is
the project tree after the call. -/
def build_executable (runE : List String → Int) (fs : FS)
    (python_exe : PyPath) (project_root : PyPath) (launcher_script : PyPath)
    (treeAfterBuild : FSNode) : Except PyErr (List Effect × FSNode × Bool) :=
  let dist_dir := project_root.join "dist"
  let build_dir := project_root.join "build"
  let cmd := pyinstallerCmd python_exe dist_dir build_dir launcher_script
  let runTool : Except PyErr (List Effect × FSNode × Bool) :=
    .ok ([.runProc cmd none], treeAfterBuild, runE cmd == 0)
  match fs.statAt dist_dir with
  | some (.dir es) => if es.isNil then runTool else .ok ([], fs.tree, true)
  | some (.file _) => .error .notADirectoryError
  | none => runTool

/-- run_project_entry: spawn the interpreter on the entry file with the
extra arguments appended, returning the child exit code. -/
def run_project_entry (runE : List String → Int) (python_exe : PyPath)
    (entry : PyPath) (extra_args : List String) : List Effect × Int :=
  let cmd := python_exe.render :: entry.render :: extra_args
  ([.runProc cmd none], runE cmd)

/-- The venv interpreter path the child branch builds by platform
convention under the project root. -/
def venvPython (w : World) : PyPath :=
  (((projectRoot w).join ".venv").join
      (if w.isWindows then "Scripts" else "bin")).join
    (if w.isWindows then "python.exe" else "python")

/-- The interpreter the child branch picks: the venv interpreter when the
venv directory and that interpreter file both exist, else the currently
running interpreter. -/
def childInterp (w : World) : PyPath :=
  if (projFS w).existsAt ((projectRoot w).join ".venv") &&
      (projFS w).existsAt (venvPython w) then venvPython w
  else pathOfString w.sysExecutable

/-- Overriding one key of an environment mapping. -/
def setEnv (e : String → Option String) (k v : String) : String → Option String :=
  fun x => if x = k then some v else e x

/-- The environment passed to a re-invoked packaged launcher: the parent
environment with the child flag and the project root set. -/
def childEnv (w : World) : String → Option String :=
  setEnv (setEnv w.env "CRYPTO_LAUNCHER_CHILD" "1") "CRYPTO_PROJECT_ROOT"
    ((projectRoot w).render)

/-- The fixed packaged-executable path under the project root. -/
def distExePath (w : World) : PyPath :=
  ((projectRoot w).join "dist").join "CryptoFuturesLauncher.exe"

/-- launcher.py main, returning the effect trace and the process exit code,
or the uncaught exception. Log output is not modelled. -/
def launcher_main (w : World) (argv : List String) :
    Except PyErr (List Effect × Int) :=
  let child_mode := (w.env "CRYPTO_LAUNCHER_CHILD").getD "0" = "1"
  let project_root := projectRoot w
  if child_mode then
    match Launcher.find_entrypoint (projFS w) with
    | .error e => .error e
    | .ok none => .ok ([], 1)
    | .ok (some entry) =>
        let (effs, code) := run_project_entry w.run (childInterp w) entry argv
        .ok (effs, code)
  else
    match Launcher.find_entrypoint (scriptFS w) with
    | .error e => .error e
    | .ok _ =>
        let venv_dir := project_root.join ".venv"
        let (venvEffs, python_exe) :=
          ensure_venv ((projFS w).existsAt venv_dir) w.isWindows venv_dir
        let (reqEffs, _) := install_requirements w.run (projFS w) python_exe project_root
        let (pyiEffs, _) := ensure_pyinstaller w.run python_exe
        let pre := venvEffs ++ reqEffs ++ pyiEffs
        let dist_exe := distExePath w
        if (projFS w).existsAt dist_exe then
          .ok (pre ++ [.runProc [dist_exe.render] (some (childEnv w))], 0)
        else if !w.isWindows then
          match Launcher.find_entrypoint (projFS w) with
          | .error e => .error e
          | .ok none => .ok (pre, 1)
          | .ok (some entry) =>
              let (effs, code) := run_project_entry w.run python_exe entry argv
              .ok (pre ++ effs, code)
        else
          match build_executable w.run (projFS w) python_exe project_root
                  w.scriptFile w.treeAfterBuild with
          | .error e => .error e
          | .ok (bEffs, tree2, success) =>
              if success then
                if (FS.mk project_root tree2 w.outside).existsAt dist_exe then
                  .ok (pre ++ bEffs ++
                        [.runProc [dist_exe.render] (some (childEnv w))], 0)
                else .ok (pre ++ bEffs, 1)
              else
                match Launcher.find_entrypoint ⟨project_root, tree2, w.outside⟩ with
                | .error e => .error e
                | .ok none => .ok (pre ++ bEffs, 1)
                | .ok (some entry) =>
                    let (effs, code) := run_project_entry w.run python_exe entry argv
                    .ok (pre ++ bEffs ++ effs, code)

/-- The world of one build_win_exe.py invocation. -/
structure BWorld where
  sysExecutable : String
  launcherExists : Bool
  launcherPath : String
  run : List String → Int

/-- The version probe command of ensure_pyinstaller_available. -/
def versionCmd (w : BWorld) : List String :=
  [w.sysExecutable, "-m", "PyInstaller", "--version"]

/-- ensure_pyinstaller_available: the checked probe raises on a nonzero
exit, the handler turns any failure into false. -/
def ensure_pyinstaller_available (w : BWorld) : Bool :=
  w.run (versionCmd w) == 0

/-- The packaging command build_win_exe.py runs. -/
def bweBuildCmd (w : BWorld) : List String :=
  [w.sysExecutable, "-m", "PyInstaller", "--onefile", "--name",
   "CryptoFuturesLauncher", w.launcherPath]

/-- build_win_exe.py main: exit 2 when the tool probe fails, exit 1 when
the launcher script is missing, otherwise run the checked build, which
raises on a nonzero tool exit and otherwise falls through to exit 0. -/
def buildWinExe_main (w : BWorld) : Except PyErr (List Effect × Int) :=
  if !ensure_pyinstaller_available w then
    .ok ([.runProc (versionCmd w) none], 2)
  else if !w.launcherExists then
    .ok ([.runProc (versionCmd w) none], 1)
  else if w.run (bweBuildCmd w) == 0 then
    .ok ([.runProc (versionCmd w) none, .runProc (bweBuildCmd w) none], 0)
  else .error .calledProcessError

/-- The line enhanced_launcher.py log builds from a timestamp, a level and
a message. -/
def Enhanced.logLine (ts level msg : String) : String :=
  "[" ++ ts ++ "] " ++ level ++ " " ++ msg

/-- The line launcher_wrapper.py log builds from a timestamp and a message;
it carries no level token. -/
def Wrapper.logLine (ts msg : String) : String :=
  "[" ++ ts ++ "] " ++ msg

/-- Whether a string has the exact strftime shape of the log timestamps. -/
def isTimestamp (s : String) : Bool :=
  match s.data with
  | [y1, y2, y3, y4, h1, m1, m2, h2, d1, d2, sp, hh1, hh2, c1, mm1, mm2, c2, ss1, ss2] =>
      y1.isDigit && y2.isDigit && y3.isDigit && y4.isDigit &&
      h1 == '-' && m1.isDigit && m2.isDigit && h2 == '-' &&
      d1.isDigit && d2.isDigit && sp == ' ' &&
      hh1.isDigit && hh2.isDigit && c1 == ':' &&
      mm1.isDigit && mm2.isDigit && c2 == ':' &&
      ss1.isDigit && ss2.isDigit
  | _ => false

/-- Whitespace characters for the regex escape class of non-space tokens. -/
def isWsp (c : Char) : Bool :=
  c == ' ' || c == '\t' || c == '\n' || c == '\x0b' || c == '\x0c' || c == '\r'

/-- Whether the first whitespace-class character of the list is a plain
space: together with a non-whitespace head this is exactly a match of a
nonempty non-space token followed by a literal space. -/
def firstWspIsSpace : List Char → Bool
  | [] => false
  | c :: cs => if c == ' ' then true else if isWsp c then false else firstWspIsSpace cs

/-- Whether the list starts with a nonempty non-whitespace token followed
by a literal space character. -/
def tokThenSpace : List Char → Bool
  | [] => false
  | c :: cs => !isWsp c && firstWspIsSpace cs

/-- The spec log-line pattern: a bracketed timestamp, one space, a nonempty
non-space token, one space, then arbitrary non-newline text. -/
def logPatternChars : List Char → Bool
  | ob :: y1 :: y2 :: y3 :: y4 :: da1 :: m1 :: m2 :: da2 :: d1 :: d2 :: sp ::
      hh1 :: hh2 :: co1 :: mm1 :: mm2 :: co2 :: ss1 :: ss2 :: cb :: sp2 :: rest =>
      ob == '[' &&
      y1.isDigit && y2.isDigit && y3.isDigit && y4.isDigit && da1 == '-' &&
      m1.isDigit && m2.isDigit && da2 == '-' && d1.isDigit && d2.isDigit &&
      sp == ' ' && hh1.isDigit && hh2.isDigit && co1 == ':' &&
      mm1.isDigit && mm2.isDigit && co2 == ':' &&
      ss1.isDigit && ss2.isDigit && cb == ']' && sp2 == ' ' &&
      tokThenSpace rest && rest.all (fun c => !(c == '\n'))
  | _ => false

/-- The spec log-line pattern on strings. -/
def matchesLogPattern (s : String) : Bool :=
  logPatternChars s.data

/-- The provisioning effects of a non-child invocation: possible venv
creation, possible pip install of the manifest, pip install of the
packaging tool. -/
def nonChildPre (w : World) : List Effect :=
  let root := projectRoot w
  let venv_dir := root.join ".venv"
  let (venvEffs, python_exe) :=
    ensure_venv ((projFS w).existsAt venv_dir) w.isWindows venv_dir
  let (reqEffs, _) := install_requirements w.run (projFS w) python_exe root
  let (pyiEffs, _) := ensure_pyinstaller w.run python_exe
  venvEffs ++ reqEffs ++ pyiEffs

/-- The interpreter path ensure_venv yields for a non-child invocation. -/
def provisionPython (w : World) : PyPath :=
  (ensure_venv ((projFS w).existsAt ((projectRoot w).join ".venv")) w.isWindows
    ((projectRoot w).join ".venv")).2

/-- A readable source file with no run-as-main marker. -/
def fdPy : FileData := ⟨true, "print(1)".toList, none⟩

/-- A readable source file defining main. -/
def fdMainPy : FileData := ⟨true, "def main():pass".toList, none⟩

/-- A config file whose JSON is an object listing one entrypoint. -/
def cfgFD : FileData :=
  ⟨true, [], some (.obj [("entrypoints", .arr [.str "src/start.py"])])⟩

/-- Project tree with a configured entrypoint, a conventional main.py, and
the configured file under a subdirectory. -/
def treeA : FSNode :=
  .dir (.cons "launcher_config.json" (.file cfgFD)
    (.cons "main.py" (.file fdPy)
      (.cons "src" (.dir (.cons "start.py" (.file fdPy) .nil)) .nil)))

/-- Project tree whose config file parses to a JSON array, next to a
conventional main.py. -/
def treeB : FSNode :=
  .dir (.cons "launcher_config.json" (.file ⟨true, [], some (.arr [])⟩)
    (.cons "main.py" (.file fdPy) .nil))

/-- Project tree with no config and no conventional name, where only the
heuristic scan can find a file, inside a subdirectory. -/
def treeC : FSNode :=
  .dir (.cons "sub" (.dir (.cons "x.py" (.file fdMainPy) .nil))
    (.cons "y.txt" (.file fdMainPy) .nil))

/-- An empty project tree. -/
def treeEmpty : FSNode := .dir .nil

/-- Project tree holding only a conventional main.py. -/
def treeMain : FSNode := .dir (.cons "main.py" (.file fdPy) .nil)

/-- Project tree already holding the packaged executable. -/
def treeDist : FSNode :=
  .dir (.cons "dist" (.dir (.cons "CryptoFuturesLauncher.exe"
      (.file ⟨true, [], none⟩) .nil))
    (.cons "main.py" (.file fdPy) .nil))

/-- Project tree whose config lists one absolute entrypoint. -/
def treeCfgAbs : FSNode :=
  .dir (.cons "launcher_config.json"
      (.file ⟨true, [], some (.obj [("entrypoints", .arr [.str "/etc/hosts"])])⟩)
    .nil)

/-- A stat oracle under which the absolute path /etc/hosts is a file. -/
def outsideEtc : PyPath → Option FSNode :=
  fun p => if p = ⟨true, ["etc", "hosts"]⟩ then some (.file fdPy) else none

/-- A child-mode world: the child flag and a project root are set in the
environment, the child exit oracle answers 7 everywhere. -/
def worldChild : World :=
  { env := fun k => if k = "CRYPTO_LAUNCHER_CHILD" then some "1"
           else if k = "CRYPTO_PROJECT_ROOT" then some "/proj" else none
    cwd := ⟨true, ["cwd"]⟩
    tree := treeMain
    scriptDir := ⟨true, ["s"]⟩
    scriptTree := treeEmpty
    scriptFile := ⟨true, ["s", "launcher.py"]⟩
    sysExecutable := "/usr/bin/python3"
    isWindows := false
    run := fun _ => 7
    treeAfterBuild := treeEmpty
    outside := noOutside }

/-- A non-child world where the packaged executable already exists and
every child process exits 7. -/
def worldDist : World :=
  { env := fun k => if k = "CRYPTO_PROJECT_ROOT" then some "/proj" else none
    cwd := ⟨true, ["cwd"]⟩
    tree := treeDist
    scriptDir := ⟨true, ["s"]⟩
    scriptTree := treeEmpty
    scriptFile := ⟨true, ["s", "launcher.py"]⟩
    sysExecutable := "/usr/bin/python3"
    isWindows := false
    run := fun _ => 7
    treeAfterBuild := treeEmpty
    outside := noOutside }

/-- A build_win_exe world where the packaging tool probe fails. -/
def bwNoTool : BWorld :=
  { sysExecutable := "/usr/bin/python3"
    launcherExists := true
    launcherPath := "/s/launcher.py"
    run := fun _ => 3 }

/-- A build_win_exe world where the packaging tool probe succeeds. -/
def bwTool : BWorld :=
  { sysExecutable := "/usr/bin/python3"
    launcherExists := true
    launcherPath := "/s/launcher.py"
    run := fun _ => 0 }

/-- Config-file states in which loading is defined to yield the empty
mapping: absent, a directory, unreadable, or failing to parse as JSON. -/
def configYieldsEmpty (tree : FSNode) : Bool :=
  match tree.lookup ["launcher_config.json"] with
  | none => true
  | some (.dir _) => true
  | some (.file fd) => !fd.readable || fd.json.isNone

/-- Config-file states in which resolution reaches the conventional list
with no configured candidates: the empty-mapping states above, or a parsed
JSON object with no entrypoints key. A parsed non-object is excluded. -/
def configFallsThrough (tree : FSNode) : Bool :=
  match tree.lookup ["launcher_config.json"] with
  | none => true
  | some (.dir _) => true
  | some (.file fd) =>
      if fd.readable then
        match fd.json with
        | none => true
        | some (.obj kvs) => (lookupKey kvs "entrypoints").isNone
        | some _ => false
      else true

/-- Project tree whose config file parses to an object without the
entrypoints key, next to a conventional main.py. -/
def treeNoKey : FSNode :=
  .dir (.cons "launcher_config.json"
      (.file ⟨true, [], some (.obj [("other", .num 1)])⟩)
    (.cons "main.py" (.file fdPy) .nil))

/-- Claim C10: with no requirements.txt under the project root,
install_requirements reports success at once and never invokes pip; the
return value is the same True a successful installation yields. -/
theorem c10_no_manifest_success (runE : List String → Int) (fs : FS)
    (python_exe project_root : PyPath)
    (h : fs.existsAt (project_root.join "requirements.txt") = false) :
    install_requirements runE fs python_exe project_root = ([], true) := by
  simp [install_requirements, h]

/-- Witness for C10 at a tree holding only main.py. -/
theorem c10_no_manifest_success_witness :
    (FS.mk ⟨true, ["proj"]⟩ treeMain noOutside).existsAt
        (PyPath.join ⟨true, ["proj"]⟩ "requirements.txt") = false ∧
    install_requirements (fun _ => 7) (FS.mk ⟨true, ["proj"]⟩ treeMain noOutside)
        ⟨true, ["py"]⟩ ⟨true, ["proj"]⟩ = ([], true) :=
  ⟨rfl, c10_no_manifest_success (fun _ => 7) (FS.mk ⟨true, ["proj"]⟩ treeMain noOutside)
      ⟨true, ["py"]⟩ ⟨true, ["proj"]⟩ rfl⟩

/-- Claim C4: build_executable returns success without invoking the
packaging tool whenever the dist directory exists with at least one entry
of any kind; the tool is invoked only when dist is missing or an empty
directory, and then the build fails exactly when the tool exits nonzero. -/
theorem c4_build_idempotence (runE : List String → Int) (fs : FS)
    (python_exe project_root launcher_script : PyPath) (tAfter : FSNode) :
    (∀ es, fs.statAt (project_root.join "dist") = some (.dir es) →
        es.isNil = false →
        build_executable runE fs python_exe project_root launcher_script tAfter
          = .ok ([], fs.tree, true)) ∧
    ((fs.statAt (project_root.join "dist") = none ∨
        fs.statAt (project_root.join "dist") = some (.dir .nil)) →
      build_executable runE fs python_exe project_root launcher_script tAfter
          = .ok ([.runProc (pyinstallerCmd python_exe (project_root.join "dist")
                    (project_root.join "build") launcher_script) none], tAfter,
                 runE (pyinstallerCmd python_exe (project_root.join "dist")
                    (project_root.join "build") launcher_script) == 0) ∧
      ((runE (pyinstallerCmd python_exe (project_root.join "dist")
                (project_root.join "build") launcher_script) == 0) = false ↔
        runE (pyinstallerCmd python_exe (project_root.join "dist")
                (project_root.join "build") launcher_script) ≠ 0)) := by
  constructor
  · intro es h hn
    simp [build_executable, h, hn]
  · intro h
    refine ⟨?_, by simp⟩
    rcases h with h | h <;> simp [build_executable, h, FSEntries.isNil]

/-- Witness for C4: a nonempty dist directory skips the tool; an absent
dist directory invokes it, and the failure report matches a nonzero tool
exit. -/
theorem c4_build_idempotence_witness :
    (FS.mk ⟨true, ["proj"]⟩ treeDist noOutside).statAt
        (PyPath.join ⟨true, ["proj"]⟩ "dist")
      = some (.dir (.cons "CryptoFuturesLauncher.exe"
          (.file ⟨true, [], none⟩) .nil)) ∧
    build_executable (fun _ => 7) (FS.mk ⟨true, ["proj"]⟩ treeDist noOutside)
        ⟨true, ["py"]⟩ ⟨true, ["proj"]⟩ ⟨true, ["s", "launcher.py"]⟩ treeEmpty
      = .ok ([], treeDist, true) ∧
    build_executable (fun _ => 7) (FS.mk ⟨true, ["proj"]⟩ treeMain noOutside)
        ⟨true, ["py"]⟩ ⟨true, ["proj"]⟩ ⟨true, ["s", "launcher.py"]⟩ treeEmpty
      = .ok ([.runProc (pyinstallerCmd ⟨true, ["py"]⟩
              (PyPath.join ⟨true, ["proj"]⟩ "dist")
              (PyPath.join ⟨true, ["proj"]⟩ "build")
              ⟨true, ["s", "launcher.py"]⟩) none], treeEmpty, false) :=
  ⟨rfl,
   (c4_build_idempotence (fun _ => 7) (FS.mk ⟨true, ["proj"]⟩ treeDist noOutside)
      ⟨true, ["py"]⟩ ⟨true, ["proj"]⟩ ⟨true, ["s", "launcher.py"]⟩ treeEmpty).1
     (.cons "CryptoFuturesLauncher.exe" (.file ⟨true, [], none⟩) .nil) rfl rfl,
   ((c4_build_idempotence (fun _ => 7) (FS.mk ⟨true, ["proj"]⟩ treeMain noOutside)
      ⟨true, ["py"]⟩ ⟨true, ["proj"]⟩ ⟨true, ["s", "launcher.py"]⟩ treeEmpty).2
     (Or.inl rfl)).1⟩

/-- Claim C9: when the packaging tool probe fails, build_win_exe.py exits 2
having run nothing but the probe, so no packaging side effect happened; a
successful probe never produces the exit-2 outcome. -/
theorem c9_missing_tool_exit2 (w : BWorld) :
    (ensure_pyinstaller_available w = false →
      buildWinExe_main w = .ok ([.runProc (versionCmd w) none], 2)) ∧
    (ensure_pyinstaller_available w = true →
      ∀ t c, buildWinExe_main w = .ok (t, c) → c ≠ 2) := by
  constructor
  · intro h
    simp [buildWinExe_main, h]
  · intro h t c heq
    unfold buildWinExe_main at heq
    rw [h] at heq
    by_cases hl : w.launcherExists
    · simp only [hl] at heq
      by_cases hb : (w.run (bweBuildCmd w) == 0) = true
      · simp [hb] at heq
        omega
      · simp only [Bool.not_eq_true] at hb
        simp [hb] at heq
    · simp [hl] at heq
      omega

/-- Witness for C9: a failing probe world exits 2 with only the probe in
the trace; in a succeeding probe world the final exit is 0, not 2. -/
theorem c9_missing_tool_exit2_witness :
    ensure_pyinstaller_available bwNoTool = false ∧
    buildWinExe_main bwNoTool = .ok ([.runProc (versionCmd bwNoTool) none], 2) ∧
    ensure_pyinstaller_available bwTool = true ∧
    (0 : Int) ≠ 2 :=
  ⟨rfl, (c9_missing_tool_exit2 bwNoTool).1 rfl, rfl,
   (c9_missing_tool_exit2 bwTool).2 rfl
     [.runProc (versionCmd bwTool) none, .runProc (bweBuildCmd bwTool) none]
     0 rfl⟩

/-- A run of non-whitespace characters followed by a literal space keeps
the first whitespace a space. -/
theorem firstWspIsSpace_append (l r : List Char)
    (h : l.all (fun c => !isWsp c) = true) :
    firstWspIsSpace (l ++ ' ' :: r) = true := by
  induction l with
  | nil => simp [firstWspIsSpace]
  | cons c cs ih =>
      simp only [List.all_cons, Bool.and_eq_true, Bool.not_eq_true'] at h
      have hsp : (c == ' ') = false := by
        cases hx : c == ' ' with
        | false => rfl
        | true =>
            rw [beq_iff_eq.mp hx] at h
            simp [isWsp] at h
      simp [firstWspIsSpace, hsp, h.1, ih (by simpa using h.2)]

/-- A nonempty all-non-whitespace token followed by a literal space matches
the token-then-space shape, whatever follows. -/
theorem tokThenSpace_append (l r : List Char) (h1 : l.isEmpty = false)
    (h2 : l.all (fun c => !isWsp c) = true) :
    tokThenSpace (l ++ ' ' :: r) = true := by
  cases l with
  | nil => simp at h1
  | cons c cs =>
      simp only [List.all_cons, Bool.and_eq_true] at h2
      simp [tokThenSpace, h2.1, firstWspIsSpace_append cs r h2.2]

/-- Non-whitespace characters are in particular not newlines. -/
theorem all_not_newline_of_not_wsp (l : List Char)
    (h : l.all (fun c => !isWsp c) = true) :
    l.all (fun c => !(c == '\n')) = true := by
  simp only [List.all_eq_true] at h ⊢
  intro c hc
  have hw := h c hc
  have hne : c ≠ '\n' := by
    intro he
    rw [he] at hw
    simp [isWsp] at hw
  simpa using hne

/-- The characters of the line the enhanced launcher log writes. -/
theorem enhanced_logLine_data (ts level msg : String) :
    (Enhanced.logLine ts level msg).data
      = '[' :: (ts.data ++ ']' :: ' ' :: (level.data ++ ' ' :: msg.data)) := by
  have h1 : "[".data = ['['] := rfl
  have h2 : "] ".data = [']', ' '] := rfl
  have h3 : " ".data = [' '] := rfl
  simp [Enhanced.logLine, String.data_append, h1, h2, h3]

/-- The characters of the line the wrapper log writes. -/
theorem wrapper_logLine_data (ts msg : String) :
    (Wrapper.logLine ts msg).data
      = '[' :: (ts.data ++ ']' :: ' ' :: msg.data) := by
  have h1 : "[".data = ['['] := rfl
  have h2 : "] ".data = [']', ' '] := rfl
  simp [Wrapper.logLine, String.data_append, h1, h2]

/-- Claim C7 counterexample: with a well-formed timestamp, the wrapper log
function writes a line for the message made of one word that does not match
the required pattern, because the wrapper line carries no level token. -/
theorem c7_wrapper_line_counterexample :
    isTimestamp "2025-01-01 00:00:00" = true ∧
    matchesLogPattern (Wrapper.logLine "2025-01-01 00:00:00" "started.") = false := by
  constructor <;> rfl

/-- Claim C7 as amended: a line written by the enhanced launcher log always
matches the pattern, for any timestamp of the strftime shape, any nonempty
whitespace-free level and any newline-free message; a line written by the
wrapper log matches the pattern exactly when the message itself starts with
a nonempty non-whitespace token followed by a space, since the wrapper
writes no level token of its own. -/
theorem c7_log_line_format (ts level msg : String)
    (hts : isTimestamp ts = true)
    (hl1 : level.data.isEmpty = false)
    (hl2 : level.data.all (fun c => !isWsp c) = true)
    (hm : msg.data.all (fun c => !(c == '\n')) = true) :
    matchesLogPattern (Enhanced.logLine ts level msg) = true ∧
    matchesLogPattern (Wrapper.logLine ts msg)
      = (tokThenSpace msg.data && msg.data.all (fun c => !(c == '\n'))) := by
  unfold isTimestamp at hts
  split at hts
  case h_2 => simp at hts
  case h_1 y1 y2 y3 y4 da1 m1 m2 da2 d1 d2 sp hh1 hh2 co1 mm1 mm2 co2 ss1 ss2 heq =>
    simp only [Bool.and_eq_true, beq_iff_eq, and_assoc] at hts
    obtain ⟨hy1, hy2, hy3, hy4, hda1, hm1, hm2, hda2, hd1, hd2, hsp,
            hhh1, hhh2, hco1, hmm1, hmm2, hco2, hss1, hss2⟩ := hts
    subst hda1 hda2 hsp hco1 hco2
    constructor
    · show logPatternChars (Enhanced.logLine ts level msg).data = true
      rw [enhanced_logLine_data, heq]
      simp only [List.cons_append, List.nil_append, logPatternChars]
      simp [hy1, hy2, hy3, hy4, hm1, hm2, hd1, hd2, hhh1, hhh2, hmm1, hmm2,
            hss1, hss2, tokThenSpace_append level.data msg.data hl1 hl2,
            List.all_append, all_not_newline_of_not_wsp level.data hl2, hm]
    · show logPatternChars (Wrapper.logLine ts msg).data = _
      rw [wrapper_logLine_data, heq]
      simp only [List.cons_append, List.nil_append, logPatternChars]
      simp [hy1, hy2, hy3, hy4, hm1, hm2, hd1, hd2, hhh1, hhh2, hmm1, hmm2,
            hss1, hss2, hm]

/-- Witness for C7 at a concrete timestamp, level and message. -/
theorem c7_log_line_format_witness :
    isTimestamp "2025-01-01 12:30:45" = true ∧
    "INFO".data.isEmpty = false ∧
    "INFO".data.all (fun c => !isWsp c) = true ∧
    "hello world".data.all (fun c => !(c == '\n')) = true ∧
    matchesLogPattern (Enhanced.logLine "2025-01-01 12:30:45" "INFO" "hello world")
      = true :=
  ⟨rfl, rfl, rfl, rfl,
   (c7_log_line_format "2025-01-01 12:30:45" "INFO" "hello world"
      rfl rfl rfl rfl).1⟩

/-- The config loop over string candidates agrees with the first-existing
file search over those candidates. -/
theorem configLoop_map_str (fs : FS) (eps : List String) :
    configLoop fs (eps.map JVal.str) = .ok (firstExistingFile fs eps) := by
  induction eps with
  | nil => rfl
  | cons c rest ih =>
      simp only [List.map_cons, configLoop, firstExistingFile]
      cases h : fs.isFile (fs.root.join c) <;> simp [h, ih]

/-- Claim C1: with a configured entrypoint list of strings, resolution
returns the first configured path that is an existing regular file; only
when none qualifies does it return the first existing conventional name,
and only when that also fails the heuristic result. In particular a
configured hit wins even when main.py exists. Generic in the heuristic
marker, so it covers launcher.py and enhanced_launcher.py alike. -/
theorem c1_config_priority (marker : List Char → Bool) (fs : FS)
    (eps : List String)
    (h : cfgEntrypoints (load_launcher_config fs.tree) = .ok (eps.map .str)) :
    findEntrypointCore marker fs =
      .ok (match firstExistingFile fs eps with
           | some p => some p
           | none =>
              match firstExistingFile fs defaultCandidates with
              | some q => some q
              | none => discoverCore marker fs) := by
  simp only [findEntrypointCore, h, configLoop_map_str]
  cases h1 : firstExistingFile fs eps with
  | some p => simp [h1]
  | none =>
      cases h2 : firstExistingFile fs defaultCandidates with
      | some q => simp [h1, h2]
      | none => simp [h1, h2]

/-- Witness for C1: the spec scenario with config src/start.py while
main.py also exists; the configured path wins. -/
theorem c1_config_priority_witness :
    cfgEntrypoints (load_launcher_config treeA)
      = .ok (["src/start.py"].map JVal.str) ∧
    FS.isFile ⟨⟨true, ["proj"]⟩, treeA, noOutside⟩ (PyPath.join ⟨true, ["proj"]⟩ "main.py")
      = true ∧
    Launcher.find_entrypoint ⟨⟨true, ["proj"]⟩, treeA, noOutside⟩
      = .ok (some ⟨true, ["proj", "src", "start.py"]⟩) :=
  ⟨rfl, rfl,
   (c1_config_priority launcherMarker ⟨⟨true, ["proj"]⟩, treeA, noOutside⟩
      ["src/start.py"] rfl).trans rfl⟩

/-- In every fall-through config state the config tier contributes an empty
candidate list without raising. -/
theorem cfgEntrypoints_of_fallsThrough (tree : FSNode)
    (h : configFallsThrough tree = true) :
    cfgEntrypoints (load_launcher_config tree) = .ok [] := by
  unfold configFallsThrough at h
  split at h
  case h_1 hl =>
      simp [load_launcher_config, hl, cfgEntrypoints, getAttrGet, lookupKey,
            orEmptyList, truthy, iterElems]
  case h_2 es hl =>
      simp [load_launcher_config, hl, cfgEntrypoints, getAttrGet, lookupKey,
            orEmptyList, truthy, iterElems]
  case h_3 fd hl =>
      by_cases hr : fd.readable = true
      · rw [if_pos hr] at h
        split at h
        · rename_i hj
          simp [load_launcher_config, hl, hr, hj, cfgEntrypoints,
                getAttrGet, lookupKey, orEmptyList, truthy, iterElems]
        · rename_i kvs hj
          have hk : lookupKey kvs "entrypoints" = none :=
            Option.isNone_iff_eq_none.mp h
          simp [load_launcher_config, hl, hr, hj, cfgEntrypoints,
                getAttrGet, hk, orEmptyList, truthy, iterElems]
        · simp at h
      · simp only [Bool.not_eq_true] at hr
        simp [load_launcher_config, hl, hr, cfgEntrypoints, getAttrGet,
              lookupKey, orEmptyList, truthy, iterElems]

/-- Claim C6 counterexample: a present config file that parses to a JSON
array, next to a conventional main.py; loading returns the array and
resolution raises AttributeError instead of falling through. -/
theorem c6_nonobject_config_counterexample :
    (FSNode.lookup treeB ["launcher_config.json"]).isSome = true ∧
    FS.isFile ⟨⟨true, ["proj"]⟩, treeB, noOutside⟩ (PyPath.join ⟨true, ["proj"]⟩ "main.py")
      = true ∧
    Launcher.find_entrypoint ⟨⟨true, ["proj"]⟩, treeB, noOutside⟩
      = .error .attributeError :=
  ⟨rfl, rfl, rfl⟩

/-- Claim C6 as amended: when the config file is absent, a directory,
unreadable or JSON-unparseable, loading yields the empty mapping; in those
states and also for a parsed object without the entrypoints key, resolution
falls through to the conventional list and then the heuristic, without
raising. A config parsing to a non-object value is excluded: there loading
returns the value as-is and resolution raises (see the counterexample). -/
theorem c6_benign_config_falls_through (marker : List Char → Bool) (fs : FS) :
    (configYieldsEmpty fs.tree = true → load_launcher_config fs.tree = .obj []) ∧
    (configFallsThrough fs.tree = true →
      findEntrypointCore marker fs =
        .ok (match firstExistingFile fs defaultCandidates with
             | some q => some q
             | none => discoverCore marker fs)) := by
  constructor
  · intro h
    unfold configYieldsEmpty at h
    split at h
    case h_1 hl => simp [load_launcher_config, hl]
    case h_2 es hl => simp [load_launcher_config, hl]
    case h_3 fd hl =>
        by_cases hr : fd.readable = true
        · simp only [hr, Bool.not_true, Bool.false_or] at h
          have hj : fd.json = none := Option.isNone_iff_eq_none.mp h
          simp [load_launcher_config, hl, hr, hj]
        · simp only [Bool.not_eq_true] at hr
          simp [load_launcher_config, hl, hr]
  · intro h
    have hce := cfgEntrypoints_of_fallsThrough fs.tree h
    simp only [findEntrypointCore, hce, configLoop]
    cases h2 : firstExistingFile fs defaultCandidates with
    | some q => simp [h2]
    | none => simp [h2]

/-- Witness for C6: an absent config yields the empty mapping, and an
object config without the key falls through to main.py. -/
theorem c6_benign_config_falls_through_witness :
    configYieldsEmpty treeMain = true ∧
    load_launcher_config treeMain = .obj [] ∧
    configFallsThrough treeNoKey = true ∧
    Launcher.find_entrypoint ⟨⟨true, ["proj"]⟩, treeNoKey, noOutside⟩
      = .ok (some ⟨true, ["proj", "main.py"]⟩) :=
  ⟨rfl,
   (c6_benign_config_falls_through launcherMarker ⟨⟨true, ["proj"]⟩, treeMain, noOutside⟩).1 rfl,
   rfl,
   ((c6_benign_config_falls_through launcherMarker
       ⟨⟨true, ["proj"]⟩, treeNoKey, noOutside⟩).2 rfl).trans rfl⟩

/-- Joining any string onto an absolute path yields an absolute path: a
relative segment keeps the root, an absolute segment replaces it by an
absolute path. -/
theorem join_absolute (p : PyPath) (s : String) (h : p.absolute = true) :
    (p.join s).absolute = true := by
  unfold PyPath.join
  by_cases hs : strStartsWith s "/" = true
  · simp [hs, pathOfString]
  · simp only [Bool.not_eq_true] at hs
    simp [hs, h]

/-- The config tier only returns the root joined with a candidate string. -/
theorem configLoop_some_shape (fs : FS) :
    ∀ (vs : List JVal) (p : PyPath),
      configLoop fs vs = .ok (some p) → ∃ s, p = fs.root.join s := by
  intro vs
  induction vs with
  | nil => intro p h; simp [configLoop] at h
  | cons v rest ih =>
      intro p h
      cases v with
      | str s =>
          unfold configLoop at h
          by_cases hf : fs.isFile (fs.root.join s) = true
          · simp only [hf, if_true] at h
            cases h
            exact ⟨s, rfl⟩
          · simp only [Bool.not_eq_true] at hf
            simp only [hf, Bool.false_eq_true, if_false] at h
            exact ih p h
      | null => simp [configLoop] at h
      | bool b => simp [configLoop] at h
      | num n => simp [configLoop] at h
      | arr xs => simp [configLoop] at h
      | obj kvs => simp [configLoop] at h

/-- The conventional tier only returns the root joined with a name. -/
theorem firstExistingFile_some_shape (fs : FS) :
    ∀ (cands : List String) (p : PyPath),
      firstExistingFile fs cands = some p → ∃ s, p = fs.root.join s := by
  intro cands
  induction cands with
  | nil => intro p h; simp [firstExistingFile] at h
  | cons c rest ih =>
      intro p h
      unfold firstExistingFile at h
      by_cases hf : fs.isFile (fs.root.join c) = true
      · simp only [hf, if_true] at h
        cases h
        exact ⟨c, rfl⟩
      · simp only [Bool.not_eq_true] at hf
        simp only [hf, Bool.false_eq_true, if_false] at h
        exact ih p h

/-- The heuristic only returns the root extended by walked components. -/
theorem discoverCore_some_shape (marker : List Char → Bool) (fs : FS)
    (p : PyPath) (h : discoverCore marker fs = some p) :
    ∃ l, p = fs.root.joinParts l := by
  unfold discoverCore at h
  cases hs : scanFiles marker fs.tree.walkFiles with
  | none => rw [hs] at h; simp at h
  | some t =>
      rw [hs] at h
      obtain rfl : fs.root.joinParts (t.1 ++ [t.2]) = p := by simpa using h
      exact ⟨t.1 ++ [t.2], rfl⟩

/-- With a relative root, an absolute configured entry replaces the root by
pathlib join semantics, and resolution returns it once it exists: the
resolved path neither extends the root nor shares its relative flag. This
is why the C8 amendment claims only absoluteness propagation. -/
theorem absolute_config_entry_escapes_root :
    Launcher.find_entrypoint ⟨⟨false, ["proj"]⟩, treeCfgAbs, outsideEtc⟩
      = .ok (some ⟨true, ["etc", "hosts"]⟩) :=
  rfl

/-- Claim C8 counterexample: with a relative project root, as arises when
the project-root environment variable holds a relative string, resolution
returns a relative path, not an absolute one. -/
theorem c8_relative_root_counterexample :
    pathOfString "proj" = ⟨false, ["proj"]⟩ ∧
    Launcher.find_entrypoint ⟨pathOfString "proj", treeMain, noOutside⟩
      = .ok (some ⟨false, ["proj", "main.py"]⟩) ∧
    PyPath.absolute ⟨false, ["proj", "main.py"]⟩ = false :=
  ⟨rfl, rfl, rfl⟩

/-- Claim C8 as amended: a resolved entrypoint is either absent, or the
supplied root joined with one candidate string, or the root extended by
walked components; consequently an absolute supplied root always yields an
absolute resolved entrypoint. No more holds: the environment root is used
verbatim, never resolved, so a relative root can yield a relative result
(the counterexample), and an absolute configured entry replaces the root in
the join, so the result need not lie below the root. -/
theorem c8_resolved_under_root (marker : List Char → Bool) (fs : FS)
    (p : PyPath) (h : findEntrypointCore marker fs = .ok (some p)) :
    ((∃ s, p = fs.root.join s) ∨ (∃ l, p = fs.root.joinParts l)) ∧
    (fs.root.absolute = true → p.absolute = true) := by
  have hshape : (∃ s, p = fs.root.join s) ∨ (∃ l, p = fs.root.joinParts l) := by
    simp only [findEntrypointCore] at h
    split at h
    · simp at h
    · rename_i vs hvs
      split at h
      · simp at h
      · rename_i q hq
        cases h
        exact Or.inl (configLoop_some_shape fs vs p hq)
      · rename_i hq
        split at h
        · rename_i q hff
          cases h
          exact Or.inl (firstExistingFile_some_shape fs defaultCandidates p hff)
        · rename_i hff
          have hd : discoverCore marker fs = some p := by injection h
          exact Or.inr (discoverCore_some_shape marker fs p hd)
  refine ⟨hshape, ?_⟩
  intro habs
  rcases hshape with ⟨s, rfl⟩ | ⟨l, rfl⟩
  · exact join_absolute fs.root s habs
  · simpa [PyPath.joinParts] using habs

/-- Witness for C8 at an absolute-rooted filesystem: resolution returns an
absolute path, here the root joined with the candidate main.py. -/
theorem c8_resolved_under_root_witness :
    findEntrypointCore launcherMarker ⟨⟨true, ["proj"]⟩, treeMain, noOutside⟩
      = .ok (some ⟨true, ["proj", "main.py"]⟩) ∧
    (((∃ s, (⟨true, ["proj", "main.py"]⟩ : PyPath)
          = PyPath.join ⟨true, ["proj"]⟩ s) ∨
        (∃ l, (⟨true, ["proj", "main.py"]⟩ : PyPath)
          = PyPath.joinParts ⟨true, ["proj"]⟩ l)) ∧
      ((⟨true, ["proj"]⟩ : PyPath).absolute = true →
        (⟨true, ["proj", "main.py"]⟩ : PyPath).absolute = true)) :=
  ⟨rfl,
   c8_resolved_under_root launcherMarker ⟨⟨true, ["proj"]⟩, treeMain, noOutside⟩
      ⟨true, ["proj", "main.py"]⟩ rfl⟩

/-- The scan loop is invariant under truncating every file to the 2048
characters it reads anyway. -/
theorem scanFiles_trunc (marker : List Char → Bool) :
    ∀ l : List WalkItem, scanFiles marker (l.map truncItem) = scanFiles marker l := by
  intro l
  induction l with
  | nil => rfl
  | cons t rest ih =>
      obtain ⟨d, fn, fd⟩ := t
      by_cases he : strEndsWith fn ".py" = true
      · by_cases hr : fd.readable = true
        · simp [scanFiles, truncItem, truncFD, he, hr, ih, List.take_take]
        · simp only [Bool.not_eq_true] at hr
          simp [scanFiles, truncItem, truncFD, he, hr, ih]
      · simp only [Bool.not_eq_true] at he
        simp [scanFiles, truncItem, truncFD, he, ih]

mutual
/-- Walking a truncated tree walks the truncations, in the same order. -/
theorem FSNode.walkFiles_trunc :
    (t : FSNode) → t.trunc.walkFiles = t.walkFiles.map truncItem
  | .file fd => by simp [FSNode.trunc, FSNode.walkFiles]
  | .dir es => by
      simp [FSNode.trunc, FSNode.walkFiles, FSEntries.topFiles_trunc es,
            FSEntries.subWalks_trunc es]
/-- Top-level files of a truncated entry list are the truncations. -/
theorem FSEntries.topFiles_trunc :
    (es : FSEntries) → es.trunc.topFiles = es.topFiles.map truncItem
  | .nil => by simp [FSEntries.trunc, FSEntries.topFiles]
  | .cons n node rest => by
      cases node with
      | file fd =>
          simp [FSEntries.trunc, FSEntries.topFiles, FSNode.trunc,
                FSEntries.topFiles_trunc rest, truncItem]
      | dir ds =>
          simp [FSEntries.trunc, FSEntries.topFiles, FSNode.trunc,
                FSEntries.topFiles_trunc rest]
/-- Subdirectory walks of a truncated entry list are the truncations. -/
theorem FSEntries.subWalks_trunc :
    (es : FSEntries) → es.trunc.subWalks = es.subWalks.map truncItem
  | .nil => by simp [FSEntries.trunc, FSEntries.subWalks]
  | .cons n node rest => by
      cases node with
      | file fd =>
          simp [FSEntries.trunc, FSEntries.subWalks, FSNode.trunc,
                FSEntries.subWalks_trunc rest]
      | dir ds =>
          have hw := FSNode.walkFiles_trunc (FSNode.dir ds)
          simp only [FSNode.trunc] at hw
          simp [FSEntries.trunc, FSEntries.subWalks, FSNode.trunc,
                FSEntries.subWalks_trunc rest, hw, truncItem,
                List.map_map, Function.comp]
end

/-- The scan loop returns exactly the first walk record that is a readable
.py file whose first 2048 characters satisfy the marker. -/
theorem scanFiles_eq_find (marker : List Char → Bool) :
    ∀ l : List WalkItem,
      scanFiles marker l =
        (l.find? (fun t => strEndsWith t.2.1 ".py" && t.2.2.readable &&
            marker (t.2.2.text.take 2048))).map (fun t => (t.1, t.2.1)) := by
  intro l
  induction l with
  | nil => rfl
  | cons t rest ih =>
      obtain ⟨d, fn, fd⟩ := t
      by_cases he : strEndsWith fn ".py" = true
      · by_cases hr : fd.readable = true
        · by_cases hm : marker (fd.text.take 2048) = true
          · simp [scanFiles, List.find?_cons, he, hr, hm]
          · simp only [Bool.not_eq_true] at hm
            simp [scanFiles, List.find?_cons, he, hr, hm, ih]
        · simp only [Bool.not_eq_true] at hr
          simp [scanFiles, List.find?_cons, he, hr, ih]
      · simp only [Bool.not_eq_true] at he
        simp [scanFiles, List.find?_cons, he, ih]

/-- Claim C5: the heuristic result is unchanged when every file is cut to
its first 2048 characters, so the scan depends on nothing beyond that
bounded read; the scan returns the first visited .py file whose readable
2048-character head satisfies the marker; and when the config tier, the
conventional tier and the heuristic all produce nothing, resolution returns
absent rather than raising. Generic in the marker, instantiated by
launcherMarker and enhancedMarker for the two launchers. -/
theorem c5_heuristic_scan (marker : List Char → Bool) (fs : FS)
    (eps : List JVal)
    (h1 : cfgEntrypoints (load_launcher_config fs.tree) = .ok eps)
    (h2 : configLoop fs eps = .ok none)
    (h3 : firstExistingFile fs defaultCandidates = none)
    (h4 : discoverCore marker fs = none) :
    discoverCore marker ⟨fs.root, fs.tree.trunc, fs.outside⟩ = discoverCore marker fs ∧
    scanFiles marker fs.tree.walkFiles =
      (fs.tree.walkFiles.find? (fun t => strEndsWith t.2.1 ".py" &&
          t.2.2.readable && marker (t.2.2.text.take 2048))).map
        (fun t => (t.1, t.2.1)) ∧
    findEntrypointCore marker fs = .ok none := by
  refine ⟨?_, scanFiles_eq_find marker fs.tree.walkFiles, ?_⟩
  · unfold discoverCore
    rw [FSNode.walkFiles_trunc fs.tree, scanFiles_trunc marker]
  · simp only [findEntrypointCore, h1, h2, h3, h4]

/-- Witness for C5 at the empty project tree, where every strategy fails
and resolution returns absent. -/
theorem c5_heuristic_scan_witness :
    cfgEntrypoints (load_launcher_config treeEmpty) = .ok [] ∧
    configLoop ⟨⟨true, ["proj"]⟩, treeEmpty, noOutside⟩ [] = .ok none ∧
    firstExistingFile ⟨⟨true, ["proj"]⟩, treeEmpty, noOutside⟩ defaultCandidates = none ∧
    discoverCore launcherMarker ⟨⟨true, ["proj"]⟩, treeEmpty, noOutside⟩ = none ∧
    findEntrypointCore launcherMarker ⟨⟨true, ["proj"]⟩, treeEmpty, noOutside⟩ = .ok none :=
  ⟨rfl, rfl, rfl, rfl,
   (c5_heuristic_scan launcherMarker ⟨⟨true, ["proj"]⟩, treeEmpty, noOutside⟩ []
      rfl rfl rfl rfl).2.2⟩

/-- Claim C2: with the child flag equal to the string 1, launcher main does
no provisioning, no dependency installation and no packaging: the whole
effect trace is empty when resolution under the project root is absent
(exit 1), and exactly the one spawned entry process otherwise, whose exit
code becomes the process exit code verbatim; the spawned interpreter is the
venv interpreter when present, else the running one, and the remaining
arguments are forwarded. -/
theorem c2_child_mode_exec (w : World) (argv : List String)
    (hc : (w.env "CRYPTO_LAUNCHER_CHILD").getD "0" = "1") :
    (Launcher.find_entrypoint (projFS w) = .ok none →
      launcher_main w argv = .ok ([], 1)) ∧
    (∀ entry, Launcher.find_entrypoint (projFS w) = .ok (some entry) →
      launcher_main w argv =
        .ok ([.runProc ((childInterp w).render :: entry.render :: argv) none],
             w.run ((childInterp w).render :: entry.render :: argv))) ∧
    (((projFS w).existsAt ((projectRoot w).join ".venv") &&
        (projFS w).existsAt (venvPython w)) = true →
      childInterp w = venvPython w) ∧
    (((projFS w).existsAt ((projectRoot w).join ".venv") &&
        (projFS w).existsAt (venvPython w)) = false →
      childInterp w = pathOfString w.sysExecutable) := by
  refine ⟨?_, ?_, ?_, ?_⟩
  · intro h
    simp [launcher_main, hc, h]
  · intro entry h
    simp [launcher_main, hc, h, run_project_entry]
  · intro h
    simp [childInterp, h]
  · intro h
    simp [childInterp, h]

/-- Witness for C2: a child-mode world whose project tree holds main.py,
no venv, and a child oracle answering 7; the launcher spawns the running
interpreter on the entry and exits 7. -/
theorem c2_child_mode_exec_witness :
    (worldChild.env "CRYPTO_LAUNCHER_CHILD").getD "0" = "1" ∧
    Launcher.find_entrypoint (projFS worldChild)
      = .ok (some ⟨true, ["proj", "main.py"]⟩) ∧
    launcher_main worldChild ["x"] =
      .ok ([.runProc ((childInterp worldChild).render ::
              (⟨true, ["proj", "main.py"]⟩ : PyPath).render :: ["x"]) none],
           worldChild.run ((childInterp worldChild).render ::
              (⟨true, ["proj", "main.py"]⟩ : PyPath).render :: ["x"])) :=
  ⟨rfl, rfl,
   (c2_child_mode_exec worldChild ["x"] rfl).2.1 ⟨true, ["proj", "main.py"]⟩ rfl⟩

/-- Claim C3: in non-child mode, on both re-invocation paths, the packaged
executable is spawned with the child flag set to 1 and the project root set
in the child environment, and launcher main then exits 0 whatever exit code
the spawned child reports: the conclusion holds for every exit-code oracle,
so the child result is discarded. -/
theorem c3_relaunch_discards_exit (w : World) (argv : List String)
    (hnc : ¬ (w.env "CRYPTO_LAUNCHER_CHILD").getD "0" = "1")
    (hsc : ∃ r, Launcher.find_entrypoint (scriptFS w) = .ok r) :
    childEnv w "CRYPTO_LAUNCHER_CHILD" = some "1" ∧
    childEnv w "CRYPTO_PROJECT_ROOT" = some ((projectRoot w).render) ∧
    ((projFS w).existsAt (distExePath w) = true →
      launcher_main w argv =
        .ok (nonChildPre w ++
              [.runProc [(distExePath w).render] (some (childEnv w))], 0)) ∧
    (∀ bEffs tree2,
      (projFS w).existsAt (distExePath w) = false →
      w.isWindows = true →
      build_executable w.run (projFS w) (provisionPython w) (projectRoot w)
          w.scriptFile w.treeAfterBuild = .ok (bEffs, tree2, true) →
      (FS.mk (projectRoot w) tree2 w.outside).existsAt (distExePath w) = true →
      launcher_main w argv =
        .ok (nonChildPre w ++ bEffs ++
              [.runProc [(distExePath w).render] (some (childEnv w))], 0)) := by
  obtain ⟨r, hr⟩ := hsc
  refine ⟨rfl, rfl, ?_, ?_⟩
  · intro hA
    simp [launcher_main, hnc, hr, hA, nonChildPre]
  · intro bEffs tree2 hA hw hb he
    simp only [provisionPython, ensure_venv] at hb
    rw [hw] at hb
    simp only [if_true] at hb
    simp [launcher_main, hnc, hr, hA, hw, hb, he, nonChildPre, ensure_venv]

/-- Witness for C3: a non-child world whose dist executable already exists
and whose child oracle answers 7; the relaunch is spawned with the child
flag and project root set, and the launcher still exits 0. -/
theorem c3_relaunch_discards_exit_witness :
    (worldDist.env "CRYPTO_LAUNCHER_CHILD").getD "0" = "0" ∧
    Launcher.find_entrypoint (scriptFS worldDist) = .ok none ∧
    (projFS worldDist).existsAt (distExePath worldDist) = true ∧
    worldDist.run [(distExePath worldDist).render] = 7 ∧
    launcher_main worldDist [] =
      .ok (nonChildPre worldDist ++
            [.runProc [(distExePath worldDist).render]
              (some (childEnv worldDist))], 0) :=
  ⟨rfl, rfl, rfl, rfl,
   (c3_relaunch_discards_exit worldDist [] (by decide) ⟨none, rfl⟩).2.2.1 rfl⟩
